import Mathlib

/-!
Verification of the authentication / session / rate-limiting core of the
shell-history backend.  Each service function of the backend is shallowly
embedded as a pure Lean function; external collaborators (the `itsdangerous`
timestamp signer, `bcrypt`, Python's `int` and `uuid` parsing, the ORM) are
modelled at their documented boundary and passed in as explicit data or
function parameters.  Strings that the Python code manipulates character by
character are represented as `List Char`.
-/

namespace ShellHistory

/-! ## Python string primitives -/

/-- Python `str.strip()` on the left: drop leading whitespace. -/
def stripLeft (l : List Char) : List Char := l.dropWhile Char.isWhitespace

/-- Model of Python `str.strip()`: remove leading and trailing whitespace. -/
def pyStrip (l : List Char) : List Char :=
  ((stripLeft l).reverse.dropWhile Char.isWhitespace).reverse

/-- Model of Python `s.split(",")[0]`: the prefix of `s` before the first
comma (the whole string when there is no comma; `""` for `""`). -/
def firstCommaField (l : List Char) : List Char := l.takeWhile (· ≠ ',')

/-- Model of `s.replace('"', "").replace("'", "")`: delete every double or
single quote character. -/
def removeQuotes (l : List Char) : List Char :=
  l.filter (fun c => ¬(c = '"' ∨ c = '\''))

/-! ## Decimal digits

Decimal rendering and parsing of natural numbers, used to model
`str(int)` / `int(str)` at the Python boundary and the timestamp embedded in
signed tokens. -/

/-- The decimal digit character for `n % 10`. -/
def digitChar (n : Nat) : Char :=
  if n = 0 then '0' else if n = 1 then '1' else if n = 2 then '2'
  else if n = 3 then '3' else if n = 4 then '4' else if n = 5 then '5'
  else if n = 6 then '6' else if n = 7 then '7' else if n = 8 then '8'
  else '9'

/-- Parse one decimal digit character. -/
def decDigit (c : Char) : Option Nat :=
  if c = '0' then some 0 else if c = '1' then some 1 else if c = '2' then some 2
  else if c = '3' then some 3 else if c = '4' then some 4 else if c = '5' then some 5
  else if c = '6' then some 6 else if c = '7' then some 7 else if c = '8' then some 8
  else if c = '9' then some 9 else none

/-- Decimal rendering of a natural number (most significant digit first). -/
def encNat (n : Nat) : List Char :=
  if h : n < 10 then [digitChar n]
  else encNat (n / 10) ++ [digitChar (n % 10)]
  termination_by n
  decreasing_by exact Nat.div_lt_self (by omega) (by omega)

/-- Accumulating decimal parser: `decFrom a l` extends the already-parsed
value `a` with the digits of `l`, failing on any non-digit. -/
def decFrom (a : Nat) : List Char → Option Nat
  | [] => some a
  | c :: cs =>
    match decDigit c with
    | none => none
    | some d => decFrom (a * 10 + d) cs

/-- Parse a non-empty all-digit string as a natural number. -/
def decNat (l : List Char) : Option Nat :=
  match l with
  | [] => none
  | _ :: _ => decFrom 0 l

/-! ## Splitting at the last separator

`itsdangerous` recovers the signature and the timestamp of a token with
`value.rsplit(sep, 1)`; `rsplitOnce` models that: split at the LAST
occurrence of `sep`, or fail when `sep` does not occur. -/

/-- Split at the first occurrence of `sep`: `splitFirst sep l = some (a, b)`
with `l = a ++ sep :: b` and `sep ∉ a`; `none` when `sep ∉ l`. -/
def splitFirst (sep : Char) : List Char → Option (List Char × List Char)
  | [] => none
  | c :: cs =>
    if c = sep then some ([], cs)
    else
      match splitFirst sep cs with
      | none => none
      | some (a, b) => some (c :: a, b)

/-- Model of Python `l.rsplit(sep, 1)` restricted to exactly one split:
split at the last occurrence of `sep`. -/
def rsplitOnce (sep : Char) (l : List Char) : Option (List Char × List Char) :=
  match splitFirst sep l.reverse with
  | none => none
  | some (a, b) => some (b.reverse, a.reverse)

/-! ## Token Signer

Model of the external `itsdangerous.TimestampSigner` at the boundary the spec
describes (§4.2): a token is `payload ++ "." ++ timestamp ++ "." ++ mac`,
where the MAC is an HMAC keyed by the server secret computed over
`payload ++ "." ++ timestamp`.  The keyed MAC is abstracted as a function
parameter `mac : List Char → List Char` (the key is baked in); its output is
URL-safe base64 in the real library and therefore never contains the
separator `'.'` — theorems that need this take it as a hypothesis.
Timestamps are naturals (seconds); `unsign` checks the MAC first, then
parses the timestamp, then rejects tokens older than `maxAge` seconds. -/

inductive SigError where
  | badSignature
  | signatureExpired
  deriving DecidableEq, Repr

/-- `TimestampSigner.sign`: append timestamp and MAC to the payload. -/
def sign (mac : List Char → List Char) (now : Nat) (payload : List Char) : List Char :=
  payload ++ '.' :: encNat now ++ '.' :: mac (payload ++ '.' :: encNat now)

/-- `TimestampSigner.unsign(token, max_age)`: strip and verify the MAC,
then strip and check the timestamp, returning the payload. -/
def unsign (mac : List Char → List Char) (now maxAge : Nat) (token : List Char) :
    Except SigError (List Char) :=
  match rsplitOnce '.' token with
  | none => .error .badSignature
  | some (rest, sig) =>
    if mac rest = sig then
      match rsplitOnce '.' rest with
      | none => .error .badSignature
      | some (payload, ts) =>
        match decNat ts with
        | none => .error .badSignature
        | some t =>
          if now - t > maxAge then .error .signatureExpired
          else .ok payload
    else .error .badSignature

/-! ## Session Service  (src/backend/app/services/session.py)

User ids are UUIDs in the backend; they are modelled as naturals, with
`uuidChars` / `parseUuid` modelling the external `str(uuid)` / `UUID(str)`
boundary: rendering is injective, and parsing fails (Python raises
`ValueError`, caught by `verify_session`) on any malformed string. -/

/-- Models `str(user_id)` for a user id. -/
def uuidChars (user_id : Nat) : List Char := encNat user_id

/-- Models the `UUID(payload)` constructor: `none` on a malformed string
(Python raises `ValueError` there). -/
def parseUuid (l : List Char) : Option Nat := decNat l

/-- `SessionManager.create_session`: sign the string form of the user id. -/
def create_session (mac : List Char → List Char) (now : Nat) (user_id : Nat) :
    List Char :=
  sign mac now (uuidChars user_id)

/-- `SessionManager.verify_session`: unsign with
`max_age = expire_hours * 3600`, parse the payload as a user id; any
`BadSignature`, `SignatureExpired` or `ValueError` is caught and becomes
`none`. -/
def verify_session (mac : List Char → List Char) (expire_hours : Nat) (now : Nat)
    (session_token : List Char) : Option Nat :=
  match unsign mac now (expire_hours * 3600) session_token with
  | .error _ => none
  | .ok payload => parseUuid payload

/-! ## CSRF Service  (src/backend/app/services/csrf.py) and middleware
(src/backend/app/middleware/csrf.py) -/

/-- An HTTP error response raised by a dependency (`HTTPException`). -/
structure HTTPExc where
  status_code : Nat
  detail : String
  deriving DecidableEq, Repr

/-- `CSRFService.verify_token`: empty token is rejected; otherwise unsign
with a 1-hour `max_age`.  The source catches `BadSignature`, whose subclass
`SignatureExpired` is thereby caught as well, so both outcomes give
`false`. -/
def verify_token (mac : List Char → List Char) (now : Nat) (token : List Char) :
    Bool :=
  if token = [] then false
  else
    match unsign mac now 3600 token with
    | .ok _ => true
    | .error _ => false

/-- Python's `x or y` on two optional strings: `None` and `""` are falsy. -/
def pyOrStr : Option (List Char) → Option (List Char) → Option (List Char)
  | some x, y => if x = [] then y else some x
  | none, y => y

/-- The CSRF middleware `verify_csrf_token`: requests whose URL path starts
with `/api/` are exempt; otherwise the token is taken from the
`X-CSRF-Token` header, falling back to the `csrf_token` form field, and a
missing, empty or unverifiable token raises a 403. -/
def verify_csrf_token (mac : List Char → List Char) (now : Nat)
    (path : List Char) (csrf_token x_csrf_token : Option (List Char)) :
    Except HTTPExc Unit :=
  if ("/api/".toList).isPrefixOf path then .ok ()
  else
    match pyOrStr x_csrf_token csrf_token with
    | none => .error ⟨403, "Invalid or missing CSRF token"⟩
    | some t =>
      if t = [] then .error ⟨403, "Invalid or missing CSRF token"⟩
      else if verify_token mac now t then .ok ()
      else .error ⟨403, "Invalid or missing CSRF token"⟩

/-! ## Rate Limiter  (src/backend/app/services/rate_limit.py)

Wall-clock times are integers here (Python uses floats; only ordering and
subtraction matter).  The history list for one key is passed in and the
updated history is returned, modelling the in-place mutation of
`self._requests[key]`. -/

/-- `RateLimiter.is_allowed`: prune timestamps not strictly newer than
`now - window_seconds`, deny with `remaining = 0` when the count has reached
`max_requests`, otherwise record `now` and allow with
`remaining = max(0, max_requests - new_count)`. -/
def is_allowed (now : Int) (max_requests window_seconds : Nat)
    (requests : List Int) : (Bool × Nat) × List Int :=
  let cutoff : Int := now - window_seconds
  let kept := requests.filter (fun req_time => cutoff < req_time)
  if max_requests ≤ kept.length then ((false, 0), kept)
  else
    let recorded := kept ++ [now]
    ((true, max_requests - recorded.length), recorded)

/-- Iterate `RateLimiter.is_allowed` for one key over a sequence of call
times, collecting each `(allowed, remaining)` result and threading the
per-key history through. -/
def runCalls (max_requests window_seconds : Nat) :
    List Int → List Int → List (Bool × Nat) × List Int
  | state, [] => ([], state)
  | state, t :: ts =>
    let r := is_allowed t max_requests window_seconds state
    let rest := runCalls max_requests window_seconds r.2 ts
    (r.1 :: rest.1, rest.2)

/-- The inputs of `get_client_ip`: the two proxy headers (absent, or present
with a possibly empty value) and the transport-level peer, `none` when
`request.client` is absent. -/
structure RequestInfo where
  x_forwarded_for : Option (List Char)
  x_real_ip : Option (List Char)
  client_host : Option (List Char)

/-- `get_client_ip`: first comma-field of a truthy `X-Forwarded-For`,
stripped; else a truthy `X-Real-IP`, stripped; else the peer address; else
`"unknown"`.  A present-but-empty header value is falsy in Python and falls
through. -/
def get_client_ip (r : RequestInfo) : List Char :=
  let forwarded := r.x_forwarded_for.getD []
  if forwarded ≠ [] then pyStrip (firstCommaField forwarded)
  else
    let real_ip := r.x_real_ip.getD []
    if real_ip ≠ [] then pyStrip real_ip
    else
      match r.client_host with
      | some h => h
      | none => "unknown".toList

/-! ## Credential Hasher  (src/backend/app/services/password.py and
src/backend/app/services/api_key.py)

`bcrypt.checkpw` is external; it is modelled as a function parameter that
either returns a boolean or raises (`Except.error`, e.g. on a malformed
stored hash).  Both wrappers catch every exception and return `false`. -/

/-- `verify_password`: `bcrypt.checkpw` under a catch-all `except` clause. -/
def verify_password (checkpw : String → String → Except Unit Bool)
    (plain_password hashed_password : String) : Bool :=
  match checkpw plain_password hashed_password with
  | .ok result => result
  | .error _ => false

/-- `verify_api_key`: identical wrapper in `api_key.py`. -/
def verify_api_key (checkpw : String → String → Except Unit Bool)
    (plain_key hashed_key : String) : Bool :=
  match checkpw plain_key hashed_key with
  | .ok result => result
  | .error _ => false

/-! ## Authenticator  (src/backend/app/services/auth.py) -/

/-- A row of the `api_keys` table; `key` is the stored bcrypt hash. -/
structure ApiKeyRec where
  id : Nat
  user_id : Nat
  key : String
  is_active : Bool
  last_used_at : Option Nat
  deriving DecidableEq, Repr

/-- A row of the `users` table (the fields the Authenticator reads). -/
structure UserRec where
  id : Nat
  is_active : Bool
  deriving DecidableEq, Repr

/-- The database state the Authenticator touches. -/
structure AuthDb where
  api_keys : List ApiKeyRec
  users : List UserRec
  deriving DecidableEq, Repr

/-- The terminal 401 of `get_current_user` when no credential resolves. -/
def authRequiredExc : HTTPExc :=
  ⟨401, "Authentication required. Provide X-API-Key header or valid session."⟩

/-- The session-cookie half of `get_current_user` (its tail after the
API-key block): a truthy cookie is verified; a verified id belonging to an
active user authenticates, an inactive user raises 401, everything else
falls to the terminal 401. -/
def session_cookie_auth (verifySession : String → Option Nat) (db : AuthDb)
    (session_cookie : Option String) : Except HTTPExc (UserRec × AuthDb) :=
  match session_cookie with
  | none => .error authRequiredExc
  | some tok =>
    if tok = "" then .error authRequiredExc
    else
      match verifySession tok with
      | none => .error authRequiredExc
      | some uid =>
        match db.users.find? (fun u => u.id = uid) with
        | none => .error authRequiredExc
        | some session_user =>
          if session_user.is_active then .ok (session_user, db)
          else .error ⟨401, "User account is inactive"⟩

/-- `get_current_user`: a truthy `X-API-Key` header is resolved by scanning
all active API keys and verifying the header value against each stored
hash; on a match the owning user is loaded (a dangling owner id would make
`api_key_obj.user` fail in Python — modelled as a 500), an inactive owner
raises 401, and otherwise `last_used_at` is set to `now` and the owner is
returned.  A falsy header falls through to the session-cookie path. -/
def get_current_user (checkpw : String → String → Except Unit Bool)
    (verifySession : String → Option Nat) (now : Nat) (db : AuthDb)
    (x_api_key : Option String) (session_cookie : Option String) :
    Except HTTPExc (UserRec × AuthDb) :=
  match x_api_key with
  | some k =>
    if k = "" then session_cookie_auth verifySession db session_cookie
    else
      let active_keys := db.api_keys.filter (fun key_obj => key_obj.is_active)
      match active_keys.find? (fun key_obj => verify_api_key checkpw k key_obj.key) with
      | none => .error ⟨401, "Invalid API key"⟩
      | some api_key_obj =>
        match db.users.find? (fun u => u.id = api_key_obj.user_id) with
        | none => .error ⟨500, "Internal Server Error"⟩
        | some user =>
          if ¬ user.is_active then .error ⟨401, "User account is inactive"⟩
          else
            .ok (user,
              { db with
                api_keys := db.api_keys.map (fun k2 =>
                  if k2.id = api_key_obj.id then { k2 with last_used_at := some now }
                  else k2) })
  | none => session_cookie_auth verifySession db session_cookie

/-! ## Login Flow  (src/backend/app/utils/auth_helpers.py) -/

/-- A row of the `users` table as the login flow reads it. -/
structure LoginUser where
  id : Nat
  username : String
  password_hash : Option String
  role : String
  is_active : Bool
  deriving DecidableEq, Repr

/-- The two shapes `handle_login` returns: an error template response with a
status code and error message, or a 303 redirect carrying the session
cookie. -/
inductive LoginResponse where
  | errorPage (status : Nat) (error : String)
  | redirect (url : String) (session_cookie : List Char) (max_age : Nat)
  deriving DecidableEq, Repr

/-- `handle_login`: rate-limit 5 per 900 s on the client key, then username
lookup, then password verification (a missing or empty stored hash is
falsy and short-circuits), then the optional admin-role check, then the
active check, then session issuance.  Returns the response together with
the updated rate-limit history for the key. -/
def handle_login (verifyPw : String → String → Bool)
    (mac : List Char → List Char) (now : Nat) (rl_state : List Int)
    (expire_hours : Nat) (db : List LoginUser) (username password : String)
    (redirect_url : String) (require_admin : Bool) : LoginResponse × List Int :=
  let r := is_allowed (now : Int) 5 900 rl_state
  if r.1.1 = false then
    (.errorPage 429 "Too many login attempts. Please try again in 15 minutes.", r.2)
  else
    match db.find? (fun u => u.username = username) with
    | none => (.errorPage 401 "Invalid username or password", r.2)
    | some user =>
      match user.password_hash with
      | none => (.errorPage 401 "Invalid username or password", r.2)
      | some ph =>
        if ph = "" ∨ verifyPw password ph = false then
          (.errorPage 401 "Invalid username or password", r.2)
        else if require_admin ∧ user.role ≠ "admin" then
          (.errorPage 403 "Admin access required", r.2)
        else if user.is_active = false then
          (.errorPage 403 "Account is inactive", r.2)
        else
          (.redirect redirect_url (create_session mac now user.id)
            (expire_hours * 3600), r.2)

/-! ## Multi-tenant Query Filter  (src/backend/app/services/search.py,
`SearchService.search` lines 110–143) -/

/-- A Python value supplied as the `exit_code` filter (`Any`). -/
inductive PyVal where
  | int (i : Int)
  | str (s : List Char)
  | other
  deriving DecidableEq, Repr

/-- Models Python's built-in `int(s)` on a string: strip whitespace, an
optional sign, then a non-empty run of decimal digits; anything else raises
`ValueError` (`none`). -/
def parsePyInt (s : List Char) : Option Int :=
  match pyStrip s with
  | '-' :: rest => (decNat rest).map (fun n => -(n : Int))
  | '+' :: rest => (decNat rest).map (fun n => (n : Int))
  | l => (decNat l).map (fun n => (n : Int))

/-- Models Python's `int(x)` on the filter value: an `int` passes through, a
string is parsed, any other type raises `TypeError` (`none`). -/
def pyInt : PyVal → Option Int
  | .int i => some i
  | .str s => parsePyInt s
  | .other => none

/-- Python `str(i)` for an integer. -/
def intChars (i : Int) : List Char :=
  if i < 0 then '-' :: encNat i.natAbs else encNat i.natAbs

/-- The structured filters accepted by `SearchService.search`. -/
structure SearchFilters where
  hostname : Option (List Char)
  username : Option (List Char)
  exit_code : Option PyVal
  deriving DecidableEq, Repr

/-- The mandatory first conjunct `user_id = "<id>"`. -/
def userIdConjunct (user_id : List Char) : List Char :=
  "user_id = \"".toList ++ user_id ++ ['"']

/-- The conjunct `hostname = "<v>"`. -/
def hostnameConjunct (v : List Char) : List Char :=
  "hostname = \"".toList ++ v ++ ['"']

/-- The conjunct `username = "<v>"`. -/
def usernameConjunct (v : List Char) : List Char :=
  "username = \"".toList ++ v ++ ['"']

/-- The conjunct `exit_code = <i>`. -/
def exitCodeConjunct (i : Int) : List Char :=
  "exit_code = ".toList ++ intChars i

/-- The optional hostname conjunct: a truthy value is stripped, has its
quote characters removed, and is embedded only if still non-empty. -/
def hostnameFilterConjunct (fs : SearchFilters) : Option (List Char) :=
  match fs.hostname with
  | none => none
  | some h =>
    if h = [] then none
    else
      let hostname := pyStrip h
      let hostname_escaped := removeQuotes hostname
      if hostname_escaped = [] then none
      else some (hostnameConjunct hostname_escaped)

/-- The optional username conjunct, same sanitization as the hostname. -/
def usernameFilterConjunct (fs : SearchFilters) : Option (List Char) :=
  match fs.username with
  | none => none
  | some u =>
    if u = [] then none
    else
      let username := pyStrip u
      let username_escaped := removeQuotes username
      if username_escaped = [] then none
      else some (usernameConjunct username_escaped)

/-- The optional exit-code conjunct: present iff the supplied value is not
`None` and `int(...)` succeeds on it. -/
def exitCodeFilterConjunct (fs : SearchFilters) : Option (List Char) :=
  match fs.exit_code with
  | none => none
  | some v => (pyInt v).map exitCodeConjunct

/-- The filter array `SearchService.search` builds: the `user_id` conjunct
always comes first, then the hostname, username and exit-code conjuncts in
source order when present. -/
def search_filter_array (user_id : List Char) (filters : Option SearchFilters) :
    List (List Char) :=
  userIdConjunct user_id ::
    (match filters with
     | none => []
     | some fs =>
       (hostnameFilterConjunct fs).toList ++ (usernameFilterConjunct fs).toList
         ++ (exitCodeFilterConjunct fs).toList)

/-! ## Helper lemmas -/

theorem removeQuotes_no_dquote (l : List Char) : '"' ∉ removeQuotes l := by
  intro h
  have := List.of_mem_filter h
  simp at this

theorem removeQuotes_no_squote (l : List Char) : '\'' ∉ removeQuotes l := by
  intro h
  have := List.of_mem_filter h
  simp at this


theorem decDigit_digitChar {n : Nat} (h : n < 10) : decDigit (digitChar n) = some n := by
  interval_cases n <;> rfl

theorem digitChar_ne_dot (n : Nat) : digitChar n ≠ '.' := by
  unfold digitChar
  repeat' split
  all_goals decide

theorem encNat_ne_nil (n : Nat) : encNat n ≠ [] := by
  unfold encNat
  split
  · simp
  · simp

theorem dot_not_mem_encNat (n : Nat) : '.' ∉ encNat n := by
  induction n using Nat.strong_induction_on with
  | _ n ih =>
    unfold encNat
    split
    · simp
      intro h
      exact digitChar_ne_dot n h.symm
    · rename_i h
      simp
      constructor
      · exact ih (n / 10) (Nat.div_lt_self (by omega) (by omega))
      · intro hc
        exact digitChar_ne_dot (n % 10) hc.symm

theorem decFrom_append (a : Nat) (l₁ l₂ : List Char) :
    decFrom a (l₁ ++ l₂) =
      match decFrom a l₁ with
      | none => none
      | some b => decFrom b l₂ := by
  induction l₁ generalizing a with
  | nil => simp [decFrom]
  | cons c cs ih =>
    simp only [List.cons_append, decFrom]
    cases decDigit c with
    | none => simp
    | some d => simp [ih]

theorem decFrom_encNat (n : Nat) :
    ∀ a : Nat, decFrom a (encNat n) = some (a * 10 ^ (encNat n).length + n) := by
  induction n using Nat.strong_induction_on with
  | _ n ih =>
    intro a
    unfold encNat
    split
    · rename_i h
      simp [decFrom, decDigit_digitChar h]
    · rename_i h
      have hlt : n / 10 < n := Nat.div_lt_self (by omega) (by omega)
      rw [decFrom_append, ih (n / 10) hlt a]
      simp only [decFrom, decDigit_digitChar (Nat.mod_lt n (by omega))]
      have hmod := Nat.div_add_mod n 10
      simp only [List.length_append, List.length_cons, List.length_nil]
      congr 1
      ring_nf
      omega

theorem decNat_encNat (n : Nat) : decNat (encNat n) = some n := by
  have h := decFrom_encNat n 0
  unfold decNat
  cases hl : encNat n with
  | nil => exact absurd hl (encNat_ne_nil n)
  | cons c cs =>
    rw [hl] at h
    simpa using h


theorem splitFirst_eq_none {sep : Char} {l : List Char} (h : sep ∉ l) :
    splitFirst sep l = none := by
  induction l with
  | nil => rfl
  | cons c cs ih =>
    simp only [List.mem_cons, not_or] at h
    simp only [splitFirst]
    rw [if_neg (fun hc => h.1 hc.symm), ih h.2]

theorem splitFirst_append {sep : Char} {a : List Char} (ha : sep ∉ a) (b : List Char) :
    splitFirst sep (a ++ sep :: b) = some (a, b) := by
  induction a with
  | nil => simp [splitFirst]
  | cons c cs ih =>
    simp only [List.mem_cons, not_or] at ha
    simp only [List.cons_append, splitFirst]
    rw [if_neg (fun hc => ha.1 hc.symm)]
    rw [show cs.append (sep :: b) = cs ++ sep :: b from rfl, ih ha.2]

theorem rsplitOnce_append {sep : Char} (a : List Char) {b : List Char} (hb : sep ∉ b) :
    rsplitOnce sep (a ++ sep :: b) = some (a, b) := by
  unfold rsplitOnce
  have : (a ++ sep :: b).reverse = b.reverse ++ sep :: a.reverse := by
    simp
  rw [this, splitFirst_append (by simpa using hb)]
  simp

theorem rsplitOnce_eq_none {sep : Char} {l : List Char} (h : sep ∉ l) :
    rsplitOnce sep l = none := by
  unfold rsplitOnce
  rw [splitFirst_eq_none (by simpa using h)]

/-- Round trip of the signer model: a token signed at time `t` unsigns to its
payload at any time `now` with `now - t ≤ maxAge`, provided the MAC output
never contains the separator. -/
theorem unsign_sign (mac : List Char → List Char) (hmac : ∀ s, '.' ∉ mac s)
    (t now maxAge : Nat) (payload : List Char) (hage : now - t ≤ maxAge) :
    unsign mac now maxAge (sign mac t payload) = .ok payload := by
  have h1 : sign mac t payload
      = (payload ++ '.' :: encNat t) ++ '.' :: mac (payload ++ '.' :: encNat t) := by
    simp [sign]
  unfold unsign
  rw [h1, rsplitOnce_append _ (hmac _)]
  simp [rsplitOnce_append payload (dot_not_mem_encNat t), decNat_encNat,
    Nat.not_lt.mpr hage]

/-! ## Rate Limiter lemmas -/

theorem is_allowed_under (t : Int) (N W : Nat) (state : List Int) (a : Int)
    (hstate : ∀ s ∈ state, a ≤ s) (ht : t < a + W) (hlen : state.length < N) :
    is_allowed t N W state = ((true, N - (state.length + 1)), state ++ [t]) := by
  have hkeep : state.filter (fun req_time => decide (t - (W : Int) < req_time)) = state := by
    rw [List.filter_eq_self]
    intro s hs
    have := hstate s hs
    simp only [decide_eq_true_eq]
    omega
  simp only [is_allowed, hkeep]
  rw [if_neg (by omega)]
  simp

theorem is_allowed_over (t : Int) (N W : Nat) (state : List Int) (a : Int)
    (hstate : ∀ s ∈ state, a ≤ s) (ht : t < a + W) (hlen : N ≤ state.length) :
    is_allowed t N W state = ((false, 0), state) := by
  have hkeep : state.filter (fun req_time => decide (t - (W : Int) < req_time)) = state := by
    rw [List.filter_eq_self]
    intro s hs
    have := hstate s hs
    simp only [decide_eq_true_eq]
    omega
  simp only [is_allowed, hkeep]
  rw [if_pos hlen]

theorem is_allowed_length_le (now : Int) (N W : Nat) (state : List Int)
    (h : state.length ≤ N) : ((is_allowed now N W state).2).length ≤ N := by
  unfold is_allowed
  dsimp only
  split
  · exact le_trans (List.length_filter_le _ _) h
  · rename_i hfull
    simp only [List.length_append, List.length_cons, List.length_nil]
    omega

theorem runCalls_all_allowed (N W : Nat) (a : Int) :
    ∀ (ts state : List Int), (∀ t ∈ ts, a ≤ t ∧ t < a + W) →
      (∀ s ∈ state, a ≤ s) → state.length + ts.length ≤ N →
      runCalls N W state ts
        = ((List.range ts.length).map (fun i => (true, N - (state.length + i + 1))),
           state ++ ts) := by
  intro ts
  induction ts with
  | nil => intro state _ _ _; simp [runCalls]
  | cons t ts ih =>
    intro state hts hstate hlen
    have h1 : is_allowed t N W state = ((true, N - (state.length + 1)), state ++ [t]) :=
      is_allowed_under t N W state a hstate (hts t (by simp)).2
        (by simp at hlen; omega)
    have hstate' : ∀ s ∈ state ++ [t], a ≤ s := by
      intro x hx
      rcases List.mem_append.mp hx with h | h
      · exact hstate x h
      · have hx2 : x = t := by simpa using h
        rw [hx2]
        exact (hts t (List.mem_cons_self t ts)).1
    have hts' : ∀ u ∈ ts, a ≤ u ∧ u < a + W := fun u hu => hts u (by simp [hu])
    have hlen' : (state ++ [t]).length + ts.length ≤ N := by
      simp only [List.length_append, List.length_cons, List.length_nil]
      simp at hlen
      omega
    simp only [runCalls, h1, ih (state ++ [t]) hts' hstate' hlen']
    rw [Prod.ext_iff]
    constructor
    · simp only [List.length_cons, List.range_succ_eq_map, List.map_cons, List.map_map]
      congr 1
      apply List.map_congr_left
      intro i _
      simp only [Function.comp_apply, List.length_append, List.length_cons,
        List.length_nil, Prod.mk.injEq, true_and]
      omega
    · simp

theorem runCalls_append (N W : Nat) (l₁ l₂ state : List Int) :
    runCalls N W state (l₁ ++ l₂)
      = ((runCalls N W state l₁).1
            ++ (runCalls N W (runCalls N W state l₁).2 l₂).1,
         (runCalls N W (runCalls N W state l₁).2 l₂).2) := by
  induction l₁ generalizing state with
  | nil => simp [runCalls]
  | cons t l₁ ih => simp [runCalls, ih]

/-! ## Claim theorems -/

/-- C4: starting from an empty history, `N ≥ 1` calls of
`is_allowed(k, N, W)` at times all inside one window all return
`allowed = true` with `remaining = N - i` on the `i`-th call (strictly
decreasing down to `0`); the `(N+1)`-th call returns `(false, 0)`; the
denied call records nothing, leaving exactly the `N` allowed timestamps in
the history; and one call never grows a history of length at most `N`
beyond `N`. -/
theorem C4_rate_limit_exhaustion (N W : Nat) (a : Int) (ts : List Int) (t_last : Int)
    (hN : 1 ≤ N) (hlen : ts.length = N)
    (hts : ∀ t ∈ ts ++ [t_last], a ≤ t ∧ t < a + W) :
    (runCalls N W [] (ts ++ [t_last])).1
        = (List.range N).map (fun i => (true, N - (i + 1))) ++ [(false, 0)]
    ∧ (runCalls N W [] (ts ++ [t_last])).2 = ts
    ∧ (∀ (now : Int) (state : List Int), state.length ≤ N →
        ((is_allowed now N W state).2).length ≤ N) := by
  have hts1 : ∀ t ∈ ts, a ≤ t ∧ t < a + W := fun t ht => hts t (by simp [ht])
  have h1 := runCalls_all_allowed N W a ts [] hts1 (by simp) (by simp [hlen])
  simp only [List.length_nil, List.nil_append, Nat.zero_add] at h1
  have hfin : is_allowed t_last N W ts = ((false, 0), ts) := by
    refine is_allowed_over t_last N W ts a ?_ ?_ ?_
    · intro s hs; exact (hts s (by simp [hs])).1
    · exact (hts t_last (by simp)).2
    · omega
  have h2 : runCalls N W ts [t_last] = ([(false, 0)], ts) := by
    simp [runCalls, hfin]
  refine ⟨?_, ?_, fun now state h => is_allowed_length_le now N W state h⟩
  · rw [runCalls_append]
    simp [h1, h2, hlen]
  · rw [runCalls_append]
    simp [h1, h2]

/-- Witness for C4 at `N = 2`, `W = 10`, call times `1, 2, 3`. -/
theorem C4_witness :
    (runCalls 2 10 [] ([1, 2] ++ [3])).1
        = (List.range 2).map (fun i => (true, 2 - (i + 1))) ++ [(false, 0)]
    ∧ (runCalls 2 10 [] ([1, 2] ++ [3])).2 = [1, 2]
    ∧ (∀ (now : Int) (state : List Int), state.length ≤ 2 →
        ((is_allowed now 2 10 state).2).length ≤ 2) :=
  C4_rate_limit_exhaustion 2 10 0 [1, 2] 3 (by decide) (by decide) (by decide)

theorem unsign_sign_expired (mac : List Char → List Char) (hmac : ∀ s, '.' ∉ mac s)
    (t now maxAge : Nat) (payload : List Char) (hage : now - t > maxAge) :
    unsign mac now maxAge (sign mac t payload) = .error .signatureExpired := by
  have h1 : sign mac t payload
      = (payload ++ '.' :: encNat t) ++ '.' :: mac (payload ++ '.' :: encNat t) := by
    simp [sign]
  unfold unsign
  rw [h1, rsplitOnce_append _ (hmac _)]
  simp [rsplitOnce_append payload (dot_not_mem_encNat t), decNat_encNat, hage]

/-- C7: verifying a freshly created session token within the configured
expiry window returns the same user id:
`verify_session (create_session user_id) = some user_id`. -/
theorem C7_session_round_trip (mac : List Char → List Char)
    (hmac : ∀ s, '.' ∉ mac s) (user_id t now expire_hours : Nat)
    (hage : now - t ≤ expire_hours * 3600) :
    verify_session mac expire_hours now (create_session mac t user_id)
      = some user_id := by
  unfold verify_session create_session
  rw [unsign_sign mac hmac t now _ _ hage]
  simp [parseUuid, uuidChars, decNat_encNat]

/-- Witness for C7: a token created at time 40 for user 123 verifies at
time 100 under a 24-hour window. -/
theorem C7_witness :
    verify_session (fun _ => ['m']) 24 100 (create_session (fun _ => ['m']) 40 123)
      = some 123 :=
  C7_session_round_trip (fun _ => ['m'])
    (by intro s; show ('.' : Char) ∉ ['m']; decide) 123 40 100 24 (by decide)

/-- C8: `verify_session` is total and normalizes every failure to `none`:
it calls `unsign` with `max_age = expire_hours * 3600`, and a failed
`unsign` (bad signature or expired) yields `none`, as does a payload that
does not parse as a user id; concretely, a token whose MAC does not match
its signed part yields `none`, and a well-signed token older than the
window yields `none`. -/
theorem C8_verify_session_total (mac : List Char → List Char)
    (expire_hours now : Nat) :
    (∀ token e, unsign mac now (expire_hours * 3600) token = .error e →
        verify_session mac expire_hours now token = none)
    ∧ (∀ token payload, unsign mac now (expire_hours * 3600) token = .ok payload →
        parseUuid payload = none → verify_session mac expire_hours now token = none)
    ∧ (∀ token rest sig, rsplitOnce '.' token = some (rest, sig) → mac rest ≠ sig →
        verify_session mac expire_hours now token = none)
    ∧ ((∀ s, '.' ∉ mac s) → ∀ t payload, now - t > expire_hours * 3600 →
        verify_session mac expire_hours now (sign mac t payload) = none) := by
  refine ⟨?_, ?_, ?_, ?_⟩
  · intro token e h
    unfold verify_session
    rw [h]
  · intro token payload h hp
    unfold verify_session
    rw [h]
    exact hp
  · intro token rest sig hsplit hne
    unfold verify_session unsign
    rw [hsplit]
    simp [hne]
  · intro hmac t payload hage
    unfold verify_session
    rw [unsign_sign_expired mac hmac t now _ payload hage]

/-- Witness for C8: a two-part token whose signature part does not match
the MAC verifies to `none`. -/
theorem C8_witness :
    verify_session (fun _ => []) 24 0 "x.y".toList = none :=
  (C8_verify_session_total (fun _ => []) 24 0).2.2.1 "x.y".toList "x".toList
    "y".toList (by decide) (by decide)

/-- C9: the credential-hash wrappers are total: whenever the underlying
`bcrypt.checkpw` call raises (malformed and non-bcrypt hash strings
included), both `verify_password` and `verify_api_key` return `false`
instead of propagating the exception, and when it returns a boolean they
return exactly that boolean. -/
theorem C9_verify_never_raises (checkpw : String → String → Except Unit Bool)
    (secret hash : String) :
    (∀ e, checkpw secret hash = .error e → verify_password checkpw secret hash = false)
    ∧ (∀ e, checkpw secret hash = .error e → verify_api_key checkpw secret hash = false)
    ∧ (∀ b, checkpw secret hash = .ok b →
        verify_password checkpw secret hash = b
          ∧ verify_api_key checkpw secret hash = b) := by
  refine ⟨?_, ?_, ?_⟩ <;> intro x h <;> simp [verify_password, verify_api_key, h]

/-- Witness for C9: a `checkpw` that always raises (e.g. on
`"not-a-valid-hash"`) makes `verify_password` return `false`. -/
theorem C9_witness :
    verify_password (fun _ _ => .error ()) "anything" "not-a-valid-hash" = false :=
  (C9_verify_never_raises (fun _ _ => .error ()) "anything" "not-a-valid-hash").1 () rfl

theorem hostnameFilterConjunct_shape (fs : SearchFilters) (c : List Char)
    (h : hostnameFilterConjunct fs = some c) :
    ∃ v, c = hostnameConjunct v ∧ '"' ∉ v ∧ '\'' ∉ v := by
  unfold hostnameFilterConjunct at h
  cases hh : fs.hostname with
  | none => simp [hh] at h
  | some hs =>
    simp only [hh] at h
    by_cases h1 : hs = []
    · simp [h1] at h
    · rw [if_neg h1] at h
      by_cases h2 : removeQuotes (pyStrip hs) = []
      · simp [h2] at h
      · rw [if_neg h2] at h
        exact ⟨removeQuotes (pyStrip hs), (Option.some.inj h).symm,
          removeQuotes_no_dquote _, removeQuotes_no_squote _⟩

theorem usernameFilterConjunct_shape (fs : SearchFilters) (c : List Char)
    (h : usernameFilterConjunct fs = some c) :
    ∃ v, c = usernameConjunct v ∧ '"' ∉ v ∧ '\'' ∉ v := by
  unfold usernameFilterConjunct at h
  cases hh : fs.username with
  | none => simp [hh] at h
  | some us =>
    simp only [hh] at h
    by_cases h1 : us = []
    · simp [h1] at h
    · rw [if_neg h1] at h
      by_cases h2 : removeQuotes (pyStrip us) = []
      · simp [h2] at h
      · rw [if_neg h2] at h
        exact ⟨removeQuotes (pyStrip us), (Option.some.inj h).symm,
          removeQuotes_no_dquote _, removeQuotes_no_squote _⟩

theorem exitCodeFilterConjunct_shape (fs : SearchFilters) (c : List Char)
    (h : exitCodeFilterConjunct fs = some c) :
    ∃ x i, fs.exit_code = some x ∧ pyInt x = some i ∧ c = exitCodeConjunct i := by
  unfold exitCodeFilterConjunct at h
  cases hv : fs.exit_code with
  | none => simp [hv] at h
  | some v =>
    simp only [hv] at h
    rw [Option.map_eq_some'] at h
    obtain ⟨i, hi, hc⟩ := h
    exact ⟨v, i, rfl, hi, hc.symm⟩

/-- C1: the filter expression built by `SearchService.search` always has
the user-id conjunct as its first element, for every caller-supplied query
and filter combination; the hostname and username conjuncts only ever
embed values with every quote character stripped; and an exit-code
conjunct appears only when the supplied value parses as an integer. -/
theorem C1_search_filter_tenant_scoped (user_id : List Char)
    (filters : Option SearchFilters) :
    (search_filter_array user_id filters).head? = some (userIdConjunct user_id)
    ∧ userIdConjunct user_id ∈ search_filter_array user_id filters
    ∧ (∀ c ∈ search_filter_array user_id filters,
        c = userIdConjunct user_id
        ∨ (∃ v, c = hostnameConjunct v ∧ '"' ∉ v ∧ '\'' ∉ v)
        ∨ (∃ v, c = usernameConjunct v ∧ '"' ∉ v ∧ '\'' ∉ v)
        ∨ (∃ fs x i, filters = some fs ∧ fs.exit_code = some x ∧ pyInt x = some i
            ∧ c = exitCodeConjunct i)) := by
  refine ⟨rfl, List.mem_cons_self _ _, ?_⟩
  intro c hc
  cases filters with
  | none =>
    left
    simpa [search_filter_array] using hc
  | some fs =>
    simp only [search_filter_array, List.mem_cons, List.mem_append,
      Option.mem_toList, Option.mem_def] at hc
    rcases hc with hc | (hc | hc) | hc
    · left; exact hc
    · right; left
      exact hostnameFilterConjunct_shape fs c hc
    · right; right; left
      exact usernameFilterConjunct_shape fs c hc
    · right; right; right
      obtain ⟨x, i, hx, hi, hcc⟩ := exitCodeFilterConjunct_shape fs c hc
      exact ⟨fs, x, i, rfl, hx, hi, hcc⟩

/-- Witness for C1: with a quote-bearing hostname filter and a string exit
code, the hostname conjunct in the array falls under the quote-free case. -/
theorem C1_witness :
    hostnameConjunct "hx".toList = userIdConjunct "42".toList
    ∨ (∃ v, hostnameConjunct "hx".toList = hostnameConjunct v ∧ '"' ∉ v ∧ '\'' ∉ v)
    ∨ (∃ v, hostnameConjunct "hx".toList = usernameConjunct v ∧ '"' ∉ v ∧ '\'' ∉ v)
    ∨ (∃ fs x i,
        (some (SearchFilters.mk (some "h\"x".toList) none (some (PyVal.str "7".toList)))
            : Option SearchFilters) = some fs
        ∧ fs.exit_code = some x ∧ pyInt x = some i
        ∧ hostnameConjunct "hx".toList = exitCodeConjunct i) :=
  (C1_search_filter_tenant_scoped "42".toList
      (some ⟨some "h\"x".toList, none, some (.str "7".toList)⟩)).2.2
    (hostnameConjunct "hx".toList) (by decide)

/-- C10 counterexample: a request can carry an `X-Forwarded-For` header
(with the empty value, which Python treats as falsy) and still have its
rate-limit key decided by the other fields — two requests with identical
`X-Forwarded-For` headers get different client ids; additionally a padded
`X-Real-IP` value is returned stripped, not verbatim. -/
theorem C10_counterexample :
    (RequestInfo.mk (some []) (some "9.9.9.9".toList) (some "7.7.7.7".toList)).x_forwarded_for
      = (RequestInfo.mk (some []) none (some "7.7.7.7".toList)).x_forwarded_for
    ∧ get_client_ip (RequestInfo.mk (some []) (some "9.9.9.9".toList) (some "7.7.7.7".toList))
        ≠ get_client_ip (RequestInfo.mk (some []) none (some "7.7.7.7".toList))
    ∧ get_client_ip (RequestInfo.mk none (some " 9.9.9.9 ".toList) none)
        ≠ " 9.9.9.9 ".toList := by
  refine ⟨rfl, by decide, by decide⟩

/-- C10 (amended): the rate-limit client identity follows header precedence
with Python truthiness: a non-empty `X-Forwarded-For` determines the key
entirely (first comma-separated entry, stripped); an absent or empty one
falls through to a non-empty `X-Real-IP` (stripped), then to the peer
address, then to `"unknown"`. -/
theorem C10_client_ip_precedence (r : RequestInfo) :
    (∀ v, r.x_forwarded_for = some v → v ≠ [] →
        get_client_ip r = pyStrip (firstCommaField v))
    ∧ (r.x_forwarded_for.getD [] = [] → ∀ w, r.x_real_ip = some w → w ≠ [] →
        get_client_ip r = pyStrip w)
    ∧ (r.x_forwarded_for.getD [] = [] → r.x_real_ip.getD [] = [] →
        ∀ c, r.client_host = some c → get_client_ip r = c)
    ∧ (r.x_forwarded_for.getD [] = [] → r.x_real_ip.getD [] = [] →
        r.client_host = none → get_client_ip r = "unknown".toList)
    ∧ (∀ r' v, r.x_forwarded_for = some v → r'.x_forwarded_for = some v →
        v ≠ [] → get_client_ip r = get_client_ip r') := by
  refine ⟨?_, ?_, ?_, ?_, ?_⟩
  · intro v hv hne
    simp [get_client_ip, hv, hne]
  · intro hxff w hw hne
    simp [get_client_ip, hxff, hw, hne]
  · intro hxff hrip c hc
    simp [get_client_ip, hxff, hrip, hc]
  · intro hxff hrip hch
    simp [get_client_ip, hxff, hrip, hch]
  · intro r' v hv hv' hne
    simp [get_client_ip, hv, hv', hne]

/-- Witness for C10 at a concrete forwarded chain. -/
theorem C10_witness :
    get_client_ip
        (RequestInfo.mk (some " 1.2.3.4 , 5.6.7.8".toList)
          (some "9.9.9.9".toList) none)
      = pyStrip (firstCommaField " 1.2.3.4 , 5.6.7.8".toList) :=
  (C10_client_ip_precedence _).1 _ rfl (by decide)

/-- C3 counterexample: the middleware decides the CSRF exemption from the
URL path prefix `/api/` alone — the authentication method is not even an
input.  A state-changing request to an `/api/` path with no CSRF token at
all passes (even when it is cookie-authenticated), while a tokenless
request to a non-`/api/` path is rejected (even when it is
API-key-authenticated). -/
theorem C3_counterexample :
    verify_csrf_token (fun _ => []) 0 "/api/commands".toList none none = .ok ()
    ∧ verify_csrf_token (fun _ => []) 0 "/ui/delete".toList none none
        = .error ⟨403, "Invalid or missing CSRF token"⟩ :=
  ⟨rfl, rfl⟩

/-- C3 (amended): CSRF verification is skipped exactly for requests whose
URL path starts with `/api/`; on every other path the token (header first,
then form field) is required, and a missing or empty token, a token the
verifier rejects (tampered), or a well-signed token older than one hour
yields a 403, while a verified token passes. -/
theorem C3_csrf_by_path (mac : List Char → List Char) (now : Nat)
    (path : List Char) (form hdr : Option (List Char)) :
    (("/api/".toList).isPrefixOf path = true →
        verify_csrf_token mac now path form hdr = .ok ())
    ∧ (("/api/".toList).isPrefixOf path = false →
        (pyOrStr hdr form = none ∨ pyOrStr hdr form = some []) →
        verify_csrf_token mac now path form hdr
          = .error ⟨403, "Invalid or missing CSRF token"⟩)
    ∧ (("/api/".toList).isPrefixOf path = false →
        ∀ t, pyOrStr hdr form = some t → verify_token mac now t = false →
        verify_csrf_token mac now path form hdr
          = .error ⟨403, "Invalid or missing CSRF token"⟩)
    ∧ (("/api/".toList).isPrefixOf path = false →
        ∀ t, pyOrStr hdr form = some t → verify_token mac now t = true →
        verify_csrf_token mac now path form hdr = .ok ())
    ∧ ((∀ s, '.' ∉ mac s) → ∀ t payload, now - t > 3600 →
        verify_token mac now (sign mac t payload) = false) := by
  refine ⟨?_, ?_, ?_, ?_, ?_⟩
  · intro hp
    unfold verify_csrf_token
    rw [if_pos hp]
  · intro hp hmt
    unfold verify_csrf_token
    rw [if_neg (by simp only [hp]; decide)]
    rcases hmt with hmt | hmt <;> simp [hmt]
  · intro hp t ht hv
    unfold verify_csrf_token
    rw [if_neg (by simp only [hp]; decide), ht]
    by_cases hte : t = []
    · simp [hte]
    · simp [hte, hv]
  · intro hp t ht hv
    have hte : t ≠ [] := by
      intro he
      rw [he] at hv
      simp [verify_token] at hv
    unfold verify_csrf_token
    rw [if_neg (by simp only [hp]; decide), ht]
    simp [hte, hv]
  · intro hmac t payload hage
    have hne : sign mac t payload ≠ [] := by simp [sign]
    unfold verify_token
    rw [if_neg hne, unsign_sign_expired mac hmac t now 3600 payload hage]

/-- Witness for C3: a tokenless request to an `/api/` path is exempt. -/
theorem C3_witness :
    verify_csrf_token (fun _ => []) 0 "/api/x".toList none none = .ok () :=
  (C3_csrf_by_path (fun _ => []) 0 "/api/x".toList none none).1 (by decide)

/-- C2 counterexample: a request whose `X-API-Key` header is present with
the empty value (Python-falsy) is NOT resolved on the API-key path: with no
active key verifying and a valid session cookie the Authenticator returns
the session user instead of failing with 401 invalid-api-key. -/
theorem C2_counterexample :
    get_current_user (fun _ _ => .ok false)
        (fun t => if t = "tok" then some 7 else none) 99
        (AuthDb.mk [] [UserRec.mk 7 true]) (some "") (some "tok")
      = .ok (UserRec.mk 7 true, AuthDb.mk [] [UserRec.mk 7 true])
    ∧ get_current_user (fun _ _ => .ok false)
        (fun t => if t = "tok" then some 7 else none) 99
        (AuthDb.mk [] [UserRec.mk 7 true]) (some "") (some "tok")
      ≠ .error ⟨401, "Invalid API key"⟩ :=
  ⟨rfl, fun h => Except.noConfusion h⟩

/-- C2 (amended): for every request whose `X-API-Key` header carries a
non-empty value, resolution happens on the API-key path, independent of
any session cookie: if no active key's hash verifies the header value the
result is 401 invalid-api-key; if a key verifies but its owner is inactive
the result is 401 account-inactive; if the owner is active the owner is
returned and that key's `last_used_at` is set to `now`. -/
theorem C2_api_key_path (checkpw : String → String → Except Unit Bool)
    (verifySession : String → Option Nat) (now : Nat) (db : AuthDb)
    (k : String) (cookie : Option String) (hk : k ≠ "") :
    (∀ cookie', get_current_user checkpw verifySession now db (some k) cookie
        = get_current_user checkpw verifySession now db (some k) cookie')
    ∧ ((db.api_keys.filter (fun key_obj => key_obj.is_active)).find?
          (fun key_obj => verify_api_key checkpw k key_obj.key) = none →
        get_current_user checkpw verifySession now db (some k) cookie
          = .error ⟨401, "Invalid API key"⟩)
    ∧ (∀ ko u,
        (db.api_keys.filter (fun key_obj => key_obj.is_active)).find?
            (fun key_obj => verify_api_key checkpw k key_obj.key) = some ko →
        db.users.find? (fun u' => u'.id = ko.user_id) = some u →
        (u.is_active = false →
            get_current_user checkpw verifySession now db (some k) cookie
              = .error ⟨401, "User account is inactive"⟩)
        ∧ (u.is_active = true →
            get_current_user checkpw verifySession now db (some k) cookie
              = .ok (u, { db with api_keys := db.api_keys.map (fun k2 =>
                  if k2.id = ko.id then { k2 with last_used_at := some now }
                  else k2) })
            ∧ ∀ k2 ∈ db.api_keys.map (fun k2 =>
                  if k2.id = ko.id then { k2 with last_used_at := some now }
                  else k2),
                k2.id = ko.id → k2.last_used_at = some now)) := by
  refine ⟨?_, ?_, ?_⟩
  · intro cookie'
    simp only [get_current_user]
    rw [if_neg hk, if_neg hk]
  · intro hfind
    simp only [get_current_user]
    rw [if_neg hk]
    simp only [hfind]
  · intro ko u hko hu
    constructor
    · intro hinact
      simp only [get_current_user]
      rw [if_neg hk]
      simp only [hko, hu, hinact]
      simp
    · intro hact
      refine ⟨?_, ?_⟩
      · simp only [get_current_user]
        rw [if_neg hk]
        simp only [hko, hu, hact]
        simp
      · intro k2 hk2 hid
        simp only [List.mem_map] at hk2
        obtain ⟨orig, _, hk2eq⟩ := hk2
        by_cases ho : orig.id = ko.id
        · rw [← hk2eq]
          simp [ho]
        · rw [← hk2eq] at hid
          simp [ho] at hid

/-- Witness for C2: a concrete active key whose stored hash `"KH"` verifies
resolves to its active owner and stamps `last_used_at = 99`. -/
theorem C2_witness :
    get_current_user (fun _ hsh => .ok (hsh == "KH")) (fun _ => none) 99
        (AuthDb.mk [ApiKeyRec.mk 1 7 "KH" true none] [UserRec.mk 7 true])
        (some "plain") none
      = .ok (UserRec.mk 7 true,
          AuthDb.mk [ApiKeyRec.mk 1 7 "KH" true (some 99)] [UserRec.mk 7 true]) := by
  have h := ((C2_api_key_path (fun _ hsh => .ok (hsh == "KH")) (fun _ => none) 99
      (AuthDb.mk [ApiKeyRec.mk 1 7 "KH" true none] [UserRec.mk 7 true]) "plain"
      none (by decide)).2.2 (ApiKeyRec.mk 1 7 "KH" true none) (UserRec.mk 7 true)
      (by decide) (by decide)).2 rfl
  exact h.1.trans rfl

/-! ## Login Flow lemmas -/

theorem handle_login_rate_limited (verifyPw : String → String → Bool)
    (mac : List Char → List Char) (now : Nat) (rl_state : List Int)
    (expire_hours : Nat) (db : List LoginUser) (username password : String)
    (redirect_url : String) (require_admin : Bool)
    (hrl : (is_allowed (now : Int) 5 900 rl_state).1.1 = false) :
    handle_login verifyPw mac now rl_state expire_hours db username password
        redirect_url require_admin
      = (.errorPage 429 "Too many login attempts. Please try again in 15 minutes.",
         (is_allowed (now : Int) 5 900 rl_state).2) := by
  simp [handle_login, hrl]

theorem handle_login_user_not_found (verifyPw : String → String → Bool)
    (mac : List Char → List Char) (now : Nat) (rl_state : List Int)
    (expire_hours : Nat) (db : List LoginUser) (username password : String)
    (redirect_url : String) (require_admin : Bool)
    (hrl : (is_allowed (now : Int) 5 900 rl_state).1.1 = true)
    (hfind : db.find? (fun u => u.username = username) = none) :
    handle_login verifyPw mac now rl_state expire_hours db username password
        redirect_url require_admin
      = (.errorPage 401 "Invalid username or password",
         (is_allowed (now : Int) 5 900 rl_state).2) := by
  simp [handle_login, hrl, hfind]

theorem handle_login_bad_password (verifyPw : String → String → Bool)
    (mac : List Char → List Char) (now : Nat) (rl_state : List Int)
    (expire_hours : Nat) (db : List LoginUser) (username password : String)
    (redirect_url : String) (require_admin : Bool) (user : LoginUser)
    (hrl : (is_allowed (now : Int) 5 900 rl_state).1.1 = true)
    (hfind : db.find? (fun u => u.username = username) = some user)
    (hbad : user.password_hash = none ∨ user.password_hash = some ""
        ∨ (∃ ph, user.password_hash = some ph ∧ verifyPw password ph = false)) :
    handle_login verifyPw mac now rl_state expire_hours db username password
        redirect_url require_admin
      = (.errorPage 401 "Invalid username or password",
         (is_allowed (now : Int) 5 900 rl_state).2) := by
  rcases hbad with hb | hb | ⟨ph, hph, hv⟩
  · simp [handle_login, hrl, hfind, hb]
  · simp [handle_login, hrl, hfind, hb]
  · simp [handle_login, hrl, hfind, hph, hv]

theorem handle_login_role_denied (verifyPw : String → String → Bool)
    (mac : List Char → List Char) (now : Nat) (rl_state : List Int)
    (expire_hours : Nat) (db : List LoginUser) (username password : String)
    (redirect_url : String) (user : LoginUser) (ph : String)
    (hrl : (is_allowed (now : Int) 5 900 rl_state).1.1 = true)
    (hfind : db.find? (fun u => u.username = username) = some user)
    (hph : user.password_hash = some ph) (hpne : ph ≠ "")
    (hv : verifyPw password ph = true) (hrole : user.role ≠ "admin") :
    handle_login verifyPw mac now rl_state expire_hours db username password
        redirect_url true
      = (.errorPage 403 "Admin access required",
         (is_allowed (now : Int) 5 900 rl_state).2) := by
  simp [handle_login, hrl, hfind, hph, hpne, hv, hrole]

theorem handle_login_inactive (verifyPw : String → String → Bool)
    (mac : List Char → List Char) (now : Nat) (rl_state : List Int)
    (expire_hours : Nat) (db : List LoginUser) (username password : String)
    (redirect_url : String) (require_admin : Bool) (user : LoginUser) (ph : String)
    (hrl : (is_allowed (now : Int) 5 900 rl_state).1.1 = true)
    (hfind : db.find? (fun u => u.username = username) = some user)
    (hph : user.password_hash = some ph) (hpne : ph ≠ "")
    (hv : verifyPw password ph = true)
    (hnra : require_admin = false ∨ user.role = "admin")
    (hinact : user.is_active = false) :
    handle_login verifyPw mac now rl_state expire_hours db username password
        redirect_url require_admin
      = (.errorPage 403 "Account is inactive",
         (is_allowed (now : Int) 5 900 rl_state).2) := by
  rcases hnra with hra | hrole
  · simp [handle_login, hrl, hfind, hph, hpne, hv, hra, hinact]
  · simp [handle_login, hrl, hfind, hph, hpne, hv, hrole, hinact]

theorem handle_login_success (verifyPw : String → String → Bool)
    (mac : List Char → List Char) (now : Nat) (rl_state : List Int)
    (expire_hours : Nat) (db : List LoginUser) (username password : String)
    (redirect_url : String) (require_admin : Bool) (user : LoginUser) (ph : String)
    (hrl : (is_allowed (now : Int) 5 900 rl_state).1.1 = true)
    (hfind : db.find? (fun u => u.username = username) = some user)
    (hph : user.password_hash = some ph) (hpne : ph ≠ "")
    (hv : verifyPw password ph = true)
    (hnra : require_admin = false ∨ user.role = "admin")
    (hact : user.is_active = true) :
    handle_login verifyPw mac now rl_state expire_hours db username password
        redirect_url require_admin
      = (.redirect redirect_url (create_session mac now user.id)
          (expire_hours * 3600),
         (is_allowed (now : Int) 5 900 rl_state).2) := by
  rcases hnra with hra | hrole
  · simp [handle_login, hrl, hfind, hph, hpne, hv, hra, hact]
  · simp [handle_login, hrl, hfind, hph, hpne, hv, hrole, hact]

/-- C5: the login flow's checks run in the fixed order rate-limit (429),
username lookup (401), password verification (401), role (403), active
(403), session issuance; the rate-limited outcome is a constant function
of the database and credentials — so the rate limit is decided before any
lookup can matter — and a wrong password gives invalid-credentials for
every role and active flag of the account. -/
theorem C5_login_order (verifyPw : String → String → Bool)
    (mac : List Char → List Char) (now : Nat) (rl_state : List Int)
    (expire_hours : Nat) (db : List LoginUser) (username password : String)
    (redirect_url : String) (require_admin : Bool) :
    ((is_allowed (now : Int) 5 900 rl_state).1.1 = false →
        ∀ (db' : List LoginUser) (verifyPw' : String → String → Bool)
          (username' password' : String) (require_admin' : Bool),
          handle_login verifyPw' mac now rl_state expire_hours db' username'
              password' redirect_url require_admin'
            = (.errorPage 429 "Too many login attempts. Please try again in 15 minutes.",
               (is_allowed (now : Int) 5 900 rl_state).2))
    ∧ ((is_allowed (now : Int) 5 900 rl_state).1.1 = true →
        (db.find? (fun u => u.username = username) = none →
            handle_login verifyPw mac now rl_state expire_hours db username
                password redirect_url require_admin
              = (.errorPage 401 "Invalid username or password",
                 (is_allowed (now : Int) 5 900 rl_state).2))
        ∧ (∀ user, db.find? (fun u => u.username = username) = some user →
            ((user.password_hash = none ∨ user.password_hash = some ""
                ∨ (∃ ph, user.password_hash = some ph ∧ verifyPw password ph = false)) →
              handle_login verifyPw mac now rl_state expire_hours db username
                  password redirect_url require_admin
                = (.errorPage 401 "Invalid username or password",
                   (is_allowed (now : Int) 5 900 rl_state).2))
            ∧ (∀ ph, user.password_hash = some ph → ph ≠ "" →
                verifyPw password ph = true →
                (user.role ≠ "admin" →
                    handle_login verifyPw mac now rl_state expire_hours db username
                        password redirect_url true
                      = (.errorPage 403 "Admin access required",
                         (is_allowed (now : Int) 5 900 rl_state).2))
                ∧ ((require_admin = false ∨ user.role = "admin") →
                    user.is_active = false →
                    handle_login verifyPw mac now rl_state expire_hours db username
                        password redirect_url require_admin
                      = (.errorPage 403 "Account is inactive",
                         (is_allowed (now : Int) 5 900 rl_state).2))
                ∧ ((require_admin = false ∨ user.role = "admin") →
                    user.is_active = true →
                    handle_login verifyPw mac now rl_state expire_hours db username
                        password redirect_url require_admin
                      = (.redirect redirect_url (create_session mac now user.id)
                          (expire_hours * 3600),
                         (is_allowed (now : Int) 5 900 rl_state).2))))) := by
  constructor
  · intro hrl db' verifyPw' username' password' require_admin'
    exact handle_login_rate_limited verifyPw' mac now rl_state expire_hours db'
      username' password' redirect_url require_admin' hrl
  · intro hrl
    refine ⟨?_, ?_⟩
    · intro hfind
      exact handle_login_user_not_found verifyPw mac now rl_state expire_hours db
        username password redirect_url require_admin hrl hfind
    · intro user hfind
      refine ⟨?_, ?_⟩
      · intro hbad
        exact handle_login_bad_password verifyPw mac now rl_state expire_hours db
          username password redirect_url require_admin user hrl hfind hbad
      · intro ph hph hpne hv
        refine ⟨?_, ?_, ?_⟩
        · intro hrole
          exact handle_login_role_denied verifyPw mac now rl_state expire_hours db
            username password redirect_url user ph hrl hfind hph hpne hv hrole
        · intro hnra hinact
          exact handle_login_inactive verifyPw mac now rl_state expire_hours db
            username password redirect_url require_admin user ph hrl hfind hph
            hpne hv hnra hinact
        · intro hnra hact
          exact handle_login_success verifyPw mac now rl_state expire_hours db
            username password redirect_url require_admin user ph hrl hfind hph
            hpne hv hnra hact

/-- Witness for C5: five timestamps already in the window make the sixth
call rate-limited regardless of credentials. -/
theorem C5_witness :
    handle_login (fun _ _ => true) (fun _ => []) 6 [1, 2, 3, 4, 5] 24 []
        "u" "p" "/" false
      = (.errorPage 429 "Too many login attempts. Please try again in 15 minutes.",
         (is_allowed ((6 : Nat) : Int) 5 900 [1, 2, 3, 4, 5]).2) :=
  (C5_login_order (fun _ _ => true) (fun _ => []) 6 [1, 2, 3, 4, 5] 24 []
      "u" "p" "/" false).1 (by decide) [] (fun _ _ => true) "u" "p" false

/-- C6: with the rate limit clear, a login with an unknown username and a
login with a known username but a wrong password (or an unusable stored
hash) return the identical response: the same status code 401 and the same
error message, with nothing to distinguish them. -/
theorem C6_login_indistinguishable (verifyPw : String → String → Bool)
    (mac : List Char → List Char) (now : Nat) (rl_state : List Int)
    (expire_hours : Nat) (db : List LoginUser) (u1 p1 u2 p2 : String)
    (redirect_url : String) (require_admin : Bool) (user : LoginUser)
    (hallow : (is_allowed (now : Int) 5 900 rl_state).1.1 = true)
    (h1 : db.find? (fun u => u.username = u1) = none)
    (h2 : db.find? (fun u => u.username = u2) = some user)
    (hbad : user.password_hash = none ∨ user.password_hash = some ""
        ∨ (∃ ph, user.password_hash = some ph ∧ verifyPw p2 ph = false)) :
    (handle_login verifyPw mac now rl_state expire_hours db u1 p1
        redirect_url require_admin).1
      = (handle_login verifyPw mac now rl_state expire_hours db u2 p2
          redirect_url require_admin).1
    ∧ (handle_login verifyPw mac now rl_state expire_hours db u1 p1
        redirect_url require_admin).1
      = .errorPage 401 "Invalid username or password" := by
  have ha := handle_login_user_not_found verifyPw mac now rl_state expire_hours db
    u1 p1 redirect_url require_admin hallow h1
  have hb := handle_login_bad_password verifyPw mac now rl_state expire_hours db
    u2 p2 redirect_url require_admin user hallow h2 hbad
  rw [ha, hb]
  exact ⟨rfl, rfl⟩

/-- Witness for C6: unknown user `"alice"` and known user `"bob"` with a
wrong password get byte-identical 401 responses. -/
theorem C6_witness :
    (handle_login (fun _ _ => false) (fun _ => []) 0 [] 24
        [LoginUser.mk 1 "bob" (some "H") "user" true] "alice" "pw" "/" false).1
      = (handle_login (fun _ _ => false) (fun _ => []) 0 [] 24
          [LoginUser.mk 1 "bob" (some "H") "user" true] "bob" "pw" "/" false).1
    ∧ (handle_login (fun _ _ => false) (fun _ => []) 0 [] 24
        [LoginUser.mk 1 "bob" (some "H") "user" true] "alice" "pw" "/" false).1
      = .errorPage 401 "Invalid username or password" :=
  C6_login_indistinguishable (fun _ _ => false) (fun _ => []) 0 [] 24
    [LoginUser.mk 1 "bob" (some "H") "user" true] "alice" "pw" "bob" "pw" "/" false
    (LoginUser.mk 1 "bob" (some "H") "user" true) (by decide) (by decide) (by decide)
    (Or.inr (Or.inr ⟨"H", rfl, rfl⟩))

end ShellHistory
